import Mathlib

/-!
TextureExplorer: a verification development.

A shallow embedding of `TextureExplorer.cpp` (the formula catalogue, the rasterising loop
`draw_texture`, `random`, `changeCoordinates` and the menu dispatcher `menuFunc`) together with
theorems about it.

Conventions of the embedding.

* The functions of the program are written once, over an arbitrary number type `α` that
  carries the operations the source uses (`+ - * /`, unary minus, `<`, `==`, the conversions
  from `int` and from literals) and no laws. Two instances are used: any linearly ordered
  field (`ℚ`, `ℝ`), which is arithmetic without rounding, and `F32`, the C type `float` with
  its rounding to 24 binary digits, its overflow to an infinity and NaN.
* In `F32` the two zeros are not told apart, every operation rounds to binary32 (also where
  C++ would carry an intermediate `double`), and the equality tests of the source are all
  against the constant 0, where `==` and equality agree.
* The C math library (`sin`, `cos`, `tan`, `sqrt`, `pow`) is external to the program; it is passed
  to the formulas as a record `MathLib α`, so every theorem quantified over it holds for every
  implementation of these functions.
* The process-wide variable `global` is passed explicitly as a value of type `glob α`.
* `cin` is the list of numbers that are still going to be entered; `rand()` is its returned value.
-/

namespace TextureExplorer

/-- The global structure: window size, the three formula selectors, the coordinate system. -/
structure glob (α : Type) where
  w : Int
  h : Int
  rForm : Int
  gForm : Int
  bForm : Int
  xMin : α
  xMax : α
  yMin : α
  yMax : α

/-- The functions of the C math library that the formulas call. -/
structure MathLib (α : Type) where
  sin : α → α
  cos : α → α
  tan : α → α
  sqrt : α → α
  pow : α → α → α

/-- One call pair `glColor3f(r, g, b); glVertex2f(x, y);` of `draw_texture`. -/
structure Point (α : Type) where
  x : α
  y : α
  r : α
  g : α
  b : α

section Formulas

variable {α : Type} [Zero α] [One α] [NatCast α] [IntCast α] [OfScientific α]
  [Add α] [Sub α] [Mul α] [Div α] [Neg α] [LT α] [DecidableEq α]
  [DecidableRel (fun a b : α => a < b)]

/-- The function `redFormula`: the switch over `global.rForm`. -/
def redFormula (m : MathLib α) (global : glob α) (x y : α) : α :=
  if global.rForm = 0 then
    if y = 0 then 0 else x * 7 / y
  else if global.rForm = 1 then
    if m.cos y = 0 then 0 else m.sin x / m.cos y
  else if global.rForm = 2 then
    if m.cos (y * x) = 0 then 0 else y - x / m.cos (y * x)
  else if global.rForm = 3 then
    let x := if x < 0 then x * (-1) else x
    let y := if y < 0 then y * (-1) else y
    m.sqrt x * m.cos (m.sqrt y)
  else if global.rForm = 4 then
    m.pow y 2 * m.cos x
  else if global.rForm = 5 then
    m.tan (m.pow x y)
  else if global.rForm = 6 then
    let y := if y < 0 then y * (-1) else y
    if m.tan (m.sqrt y) = 0 then 0 else x * y / m.tan (m.sqrt y)
  else if global.rForm = 7 then
    m.cos (x * m.cos y) * m.tan x
  else if global.rForm = 8 then
    m.sin (m.sin (x * y) * m.sin x * m.sin y) * 2
  else if global.rForm = 9 then
    if y = 0 then 0 else m.sin x * m.cos x * m.tan x / y
  else if global.rForm = 10 then
    0
  else
    0

/-- The function `greenFormula`: the switch over `global.gForm`. -/
def greenFormula (m : MathLib α) (global : glob α) (x y : α) : α :=
  if global.gForm = 0 then
    m.tan x * m.cos y
  else if global.gForm = 1 then
    m.sin (m.tan (x * y))
  else if global.gForm = 2 then
    37 * x + y
  else if global.gForm = 3 then
    if y = 0 then 0 else x / m.tan 21 / y
  else if global.gForm = 4 then
    let x := if x < 0 then x * (-1) else x
    let y := if y < 0 then y * (-1) else y
    if m.tan (x * y) = 0 then 0 else m.sqrt (x * y) / m.tan (x * y)
  else if global.gForm = 5 then
    m.tan x * m.cos y * m.sin (x * y)
  else if global.gForm = 6 then
    let x := if m.tan (x * y) < 0 then x * (-1) else x
    m.sin (m.cos (m.sqrt (m.tan (x * y))))
  else if global.gForm = 7 then
    if m.cos x = 0 then 0 else y / m.cos x
  else if global.gForm = 8 then
    m.sin (m.tan (m.pow x y))
  else if global.gForm = 9 then
    let x := if x < 0 then x * (-1) else x
    let y := if y < 0 then y * (-1) else y
    if m.sin x = 0 then 0 else m.sqrt x * m.sqrt y / m.sin x
  else if global.gForm = 10 then
    0
  else
    0

/-- The function `blueFormula`: the switch over `global.bForm`. -/
def blueFormula (m : MathLib α) (global : glob α) (x y : α) : α :=
  if global.bForm = 0 then
    if x = 0 then 1 else m.sin y / x
  else if global.bForm = 1 then
    if x = 0 then 0 else y - x / x
  else if global.bForm = 2 then
    m.tan (x * m.sin y * y)
  else if global.bForm = 3 then
    if y = 0 then 0 else m.cos x / y
  else if global.bForm = 4 then
    if y = 0 then 0
    else if m.sin (x / y) = 0 then 0 else x * m.tan x * m.cos y / m.sin (x / y)
  else if global.bForm = 5 then
    m.cos (m.sin y) * m.cos (m.sin x)
  else if global.bForm = 6 then
    let x := if m.sin x < 0 then x * (-1) else x
    m.sqrt (m.sin x) * y
  else if global.bForm = 7 then
    if x = 0 then 0 else m.pow (m.sin x) y / x
  else if global.bForm = 8 then
    0.215 * m.sin (x + y)
  else if global.bForm = 9 then
    x + m.tan (1.1265 * y)
  else if global.bForm = 10 then
    0
  else
    0

/-- The arguments with which `sqrt` is called while `redFormula` runs, in call order
(cases 3 and 6 are the only ones that call it). -/
def redSqrtArgs (m : MathLib α) (global : glob α) (x y : α) : List α :=
  if global.rForm = 3 then
    let x := if x < 0 then x * (-1) else x
    let y := if y < 0 then y * (-1) else y
    [x, y]
  else if global.rForm = 6 then
    let y := if y < 0 then y * (-1) else y
    if m.tan (m.sqrt y) = 0 then [y] else [y, y]
  else
    []

/-- The arguments with which `sqrt` is called while `greenFormula` runs, in call order
(cases 4, 6 and 9 are the only ones that call it). -/
def greenSqrtArgs (m : MathLib α) (global : glob α) (x y : α) : List α :=
  if global.gForm = 4 then
    let x := if x < 0 then x * (-1) else x
    let y := if y < 0 then y * (-1) else y
    if m.tan (x * y) = 0 then [] else [x * y]
  else if global.gForm = 6 then
    let x := if m.tan (x * y) < 0 then x * (-1) else x
    [m.tan (x * y)]
  else if global.gForm = 9 then
    let x := if x < 0 then x * (-1) else x
    let y := if y < 0 then y * (-1) else y
    if m.sin x = 0 then [] else [x, y]
  else
    []

/-- The arguments with which `sqrt` is called while `blueFormula` runs (case 6 only). -/
def blueSqrtArgs (m : MathLib α) (global : glob α) (x _y : α) : List α :=
  if global.bForm = 6 then
    let x := if m.sin x < 0 then x * (-1) else x
    [m.sin x]
  else
    []

end Formulas

section Raster

variable {α : Type} [Zero α] [One α] [NatCast α] [IntCast α] [OfScientific α]
  [Add α] [Sub α] [Mul α] [Div α] [Neg α] [LT α] [DecidableEq α]
  [DecidableRel (fun a b : α => a < b)]

/-- The inner loop of `draw_texture`, `for (int h = 0; h < global.h; h++)`, with `n` iterations
still to run, in the column at `x` and with the running value `y`. -/
def draw_column (m : MathLib α) (global : glob α) (x : α) : Nat → α → List (Point α)
  | 0, _ => []
  | n + 1, y =>
    Point.mk x y (redFormula m global x y) (greenFormula m global x y) (blueFormula m global x y)
      :: draw_column m global x n (y + (global.yMax - global.yMin) / (global.h : α))

/-- The outer loop of `draw_texture`, `for (int w = 0; w < global.w; w++)`, with `n` iterations
still to run and the running value `x`; every iteration resets `y` to `global.yMin`. -/
def draw_columns (m : MathLib α) (global : glob α) : Nat → α → List (Point α)
  | 0, _ => []
  | n + 1, x =>
    draw_column m global x global.h.toNat global.yMin
      ++ draw_columns m global n (x + (global.xMax - global.xMin) / (global.w : α))

/-- The function `draw_texture`: the points handed to OpenGL, in the order of the calls. -/
def draw_texture (m : MathLib α) (global : glob α) : List (Point α) :=
  draw_columns m global global.w.toNat global.xMin

/-- The value of `x` when the outer loop of `draw_texture` starts its iteration `col`:
`global.xMin` after `col` executions of `x += (global.xMax - global.xMin) / (float)global.w`. -/
def loopX (global : glob α) (col : Nat) : α :=
  Nat.iterate (fun x => x + (global.xMax - global.xMin) / (global.w : α)) col global.xMin

/-- The value of `y` when the inner loop of `draw_texture` starts its iteration `row`:
`global.yMin` after `row` executions of `y += (global.yMax - global.yMin) / (float)global.h`. -/
def loopY (global : glob α) (row : Nat) : α :=
  Nat.iterate (fun y => y + (global.yMax - global.yMin) / (global.h : α)) row global.yMin

/-- The point emitted at the accumulated position of column `col` and row `row`. -/
def loopPoint (m : MathLib α) (global : glob α) (col row : Nat) : Point α :=
  Point.mk (loopX global col) (loopY global row)
    (redFormula m global (loopX global col) (loopY global row))
    (greenFormula m global (loopX global col) (loopY global row))
    (blueFormula m global (loopX global col) (loopY global row))

/-- The coordinate mapper as the specification words it:
`x = xMin + col * (xMax - xMin) / W`. -/
def specX (global : glob α) (col : Nat) : α :=
  global.xMin + (col : α) * (global.xMax - global.xMin) / (global.w : α)

/-- The coordinate mapper as the specification words it:
`y = yMin + row * (yMax - yMin) / H`. -/
def specY (global : glob α) (row : Nat) : α :=
  global.yMin + (row : α) * (global.yMax - global.yMin) / (global.h : α)

/-- The pixel the specification assigns to the grid cell `(col, row)`: the mapped position and
the three channel formulas evaluated there. -/
def specPoint (m : MathLib α) (global : glob α) (col row : Nat) : Point α :=
  Point.mk (specX global col) (specY global row)
    (redFormula m global (specX global col) (specY global row))
    (greenFormula m global (specX global col) (specY global row))
    (blueFormula m global (specX global col) (specY global row))

end Raster

section State

variable {α : Type} [Zero α] [One α] [NatCast α] [IntCast α] [OfScientific α]
  [Add α] [Sub α] [Mul α] [Div α] [Neg α] [LT α] [DecidableEq α]
  [DecidableRel (fun a b : α => a < b)]

/-- The function `random`; `r1`, `r2`, `r3` are the values of the three calls of `rand()`, and
`%` is the truncating remainder of C++. -/
def random (r1 r2 r3 : Int) (global : glob α) : glob α :=
  { global with rForm := r1.tmod 10, gForm := r2.tmod 10, bForm := r3.tmod 10 }

/-- The statements `cin >> v; while (v < -1000000000 || v > 1000000000) cin >> v;` of
`changeCoordinates`: the value kept and the input left over, or `none` when the input ends
before an accepted value was read. -/
def readInRange : List α → Option (α × List α)
  | [] => none
  | v :: rest =>
    if v < -1000000000 ∨ v > 1000000000 then readInRange rest else some (v, rest)

/-- The loop `while (newMin > newMax) cin >> newMax;` of `changeCoordinates`. -/
def rereadMax (newMin : α) : α → List α → Option (α × List α)
  | newMax, [] => if newMin > newMax then none else some (newMax, [])
  | newMax, v :: rest =>
    if newMin > newMax then rereadMax newMin v rest else some (newMax, v :: rest)

/-- The function `changeCoordinates` run on the numbers `input` that are entered from then on:
the value of `global` it commits, or `none` when the input ends first (the call is still
waiting at a `cin >>` and `global` has not been written). -/
def changeCoordinates (input : List α) (global : glob α) : Option (glob α) :=
  match readInRange input with
  | none => none
  | some (newXMin, input) =>
    match readInRange input with
    | none => none
    | some (newXMax, input) =>
      match rereadMax newXMin newXMax input with
      | none => none
      | some (newXMax, input) =>
        match readInRange input with
        | none => none
        | some (newYMin, input) =>
          match readInRange input with
          | none => none
          | some (newYMax, input) =>
            match rereadMax newYMin newYMax input with
            | none => none
            | some (newYMax, _) =>
              some { global with xMin := newXMin, xMax := newXMax,
                                 yMin := newYMin, yMax := newYMax }

end State

section Menu

/-- The enum of the menu commands. -/
@[simp] def MENU_SAVE : Int := 0
@[simp] def MENU_QUIT : Int := 1
@[simp] def MENU_RANDOM : Int := 2
@[simp] def MENU_CHANGE : Int := 3
@[simp] def MENU_T0 : Int := 4
@[simp] def MENU_T1 : Int := 5
@[simp] def MENU_T2 : Int := 6
@[simp] def MENU_T3 : Int := 7
@[simp] def MENU_T4 : Int := 8
@[simp] def MENU_T5 : Int := 9
@[simp] def MENU_T6 : Int := 10
@[simp] def MENU_T7 : Int := 11
@[simp] def MENU_T8 : Int := 12
@[simp] def MENU_T9 : Int := 13
@[simp] def MENU_R0 : Int := 14
@[simp] def MENU_R1 : Int := 15
@[simp] def MENU_R2 : Int := 16
@[simp] def MENU_R3 : Int := 17
@[simp] def MENU_R4 : Int := 18
@[simp] def MENU_R5 : Int := 19
@[simp] def MENU_R6 : Int := 20
@[simp] def MENU_R7 : Int := 21
@[simp] def MENU_R8 : Int := 22
@[simp] def MENU_R9 : Int := 23
@[simp] def MENU_ROFF : Int := 24
@[simp] def MENU_G0 : Int := 25
@[simp] def MENU_G1 : Int := 26
@[simp] def MENU_G2 : Int := 27
@[simp] def MENU_G3 : Int := 28
@[simp] def MENU_G4 : Int := 29
@[simp] def MENU_G5 : Int := 30
@[simp] def MENU_G6 : Int := 31
@[simp] def MENU_G7 : Int := 32
@[simp] def MENU_G8 : Int := 33
@[simp] def MENU_G9 : Int := 34
@[simp] def MENU_GOFF : Int := 35
@[simp] def MENU_B0 : Int := 36
@[simp] def MENU_B1 : Int := 37
@[simp] def MENU_B2 : Int := 38
@[simp] def MENU_B3 : Int := 39
@[simp] def MENU_B4 : Int := 40
@[simp] def MENU_B5 : Int := 41
@[simp] def MENU_B6 : Int := 42
@[simp] def MENU_B7 : Int := 43
@[simp] def MENU_B8 : Int := 44
@[simp] def MENU_B9 : Int := 45
@[simp] def MENU_BOFF : Int := 46

/-- How a call of `menuFunc` ends. -/
inductive MenuOutcome (α : Type) where
  /-- The process ended in `exit(0)`. -/
  | exited : MenuOutcome α
  /-- The call is still inside `changeCoordinates`, waiting for input; `global` is unwritten. -/
  | waiting : MenuOutcome α
  /-- The call ran to its last statement `glutPostRedisplay()` and returned (it returns `void`);
  the argument is the value of `global` at that point. -/
  | returned : glob α → MenuOutcome α

variable {α : Type} [Zero α] [One α] [NatCast α] [IntCast α] [OfScientific α]
  [Add α] [Sub α] [Mul α] [Div α] [Neg α] [LT α] [DecidableEq α]
  [DecidableRel (fun a b : α => a < b)]

/-- The function `menuFunc`: the switch over `value`. `r1 r2 r3` are the values the next three
calls of `rand()` return and `input` the numbers entered next on `cin`; `save()` writes the
window to a file and leaves `global` alone. -/
def menuFunc (value : Int) (r1 r2 r3 : Int) (input : List α) (global : glob α) :
    MenuOutcome α :=
  if value = MENU_QUIT then MenuOutcome.exited
  else if value = MENU_SAVE then MenuOutcome.returned global
  else if value = MENU_RANDOM then MenuOutcome.returned (random r1 r2 r3 global)
  else if value = MENU_CHANGE then
    match changeCoordinates input global with
    | none => MenuOutcome.waiting
    | some newGlobal => MenuOutcome.returned newGlobal
  else if value = MENU_T0 then
    MenuOutcome.returned { global with rForm := 0, gForm := 0, bForm := 0 }
  else if value = MENU_T1 then
    MenuOutcome.returned { global with rForm := 1, gForm := 1, bForm := 1 }
  else if value = MENU_T2 then
    MenuOutcome.returned { global with rForm := 2, gForm := 2, bForm := 2 }
  else if value = MENU_T3 then
    MenuOutcome.returned { global with rForm := 3, gForm := 3, bForm := 3 }
  else if value = MENU_T4 then
    MenuOutcome.returned { global with rForm := 4, gForm := 4, bForm := 4 }
  else if value = MENU_T5 then
    MenuOutcome.returned { global with rForm := 5, gForm := 5, bForm := 5 }
  else if value = MENU_T6 then
    MenuOutcome.returned { global with rForm := 6, gForm := 6, bForm := 6 }
  else if value = MENU_T7 then
    MenuOutcome.returned { global with rForm := 7, gForm := 7, bForm := 7 }
  else if value = MENU_T8 then
    MenuOutcome.returned { global with rForm := 8, gForm := 8, bForm := 8 }
  else if value = MENU_T9 then
    MenuOutcome.returned { global with rForm := 9, gForm := 9, bForm := 9 }
  else if value = MENU_R0 then MenuOutcome.returned { global with rForm := 0 }
  else if value = MENU_R1 then MenuOutcome.returned { global with rForm := 1 }
  else if value = MENU_R2 then MenuOutcome.returned { global with rForm := 2 }
  else if value = MENU_R3 then MenuOutcome.returned { global with rForm := 3 }
  else if value = MENU_R4 then MenuOutcome.returned { global with rForm := 4 }
  else if value = MENU_R5 then MenuOutcome.returned { global with rForm := 5 }
  else if value = MENU_R6 then MenuOutcome.returned { global with rForm := 6 }
  else if value = MENU_R7 then MenuOutcome.returned { global with rForm := 7 }
  else if value = MENU_R8 then MenuOutcome.returned { global with rForm := 8 }
  else if value = MENU_R9 then MenuOutcome.returned { global with rForm := 9 }
  else if value = MENU_ROFF then MenuOutcome.returned { global with rForm := 10 }
  else if value = MENU_G0 then MenuOutcome.returned { global with gForm := 0 }
  else if value = MENU_G1 then MenuOutcome.returned { global with gForm := 1 }
  else if value = MENU_G2 then MenuOutcome.returned { global with gForm := 2 }
  else if value = MENU_G3 then MenuOutcome.returned { global with gForm := 3 }
  else if value = MENU_G4 then MenuOutcome.returned { global with gForm := 4 }
  else if value = MENU_G5 then MenuOutcome.returned { global with gForm := 5 }
  else if value = MENU_G6 then MenuOutcome.returned { global with gForm := 6 }
  else if value = MENU_G7 then MenuOutcome.returned { global with gForm := 7 }
  else if value = MENU_G8 then MenuOutcome.returned { global with gForm := 8 }
  else if value = MENU_G9 then MenuOutcome.returned { global with gForm := 9 }
  else if value = MENU_GOFF then MenuOutcome.returned { global with gForm := 10 }
  else if value = MENU_B0 then MenuOutcome.returned { global with bForm := 0 }
  else if value = MENU_B1 then MenuOutcome.returned { global with bForm := 1 }
  else if value = MENU_B2 then MenuOutcome.returned { global with bForm := 2 }
  else if value = MENU_B3 then MenuOutcome.returned { global with bForm := 3 }
  else if value = MENU_B4 then MenuOutcome.returned { global with bForm := 4 }
  else if value = MENU_B5 then MenuOutcome.returned { global with bForm := 5 }
  else if value = MENU_B6 then MenuOutcome.returned { global with bForm := 6 }
  else if value = MENU_B7 then MenuOutcome.returned { global with bForm := 7 }
  else if value = MENU_B8 then MenuOutcome.returned { global with bForm := 8 }
  else if value = MENU_B9 then MenuOutcome.returned { global with bForm := 9 }
  else if value = MENU_BOFF then MenuOutcome.returned { global with bForm := 10 }
  else MenuOutcome.returned global

end Menu

section Float

/-- The values of the C type `float` (IEEE 754 binary32): a finite value, given by the rational
number it stands for (the two zeros are not told apart), an infinity, or NaN. -/
inductive F32 where
  | finite (q : ℚ)
  | posInf
  | negInf
  | nan
  deriving DecidableEq

namespace F32

/-- The power `2 ^ e` for an integer exponent. -/
def pow2 (e : Int) : ℚ :=
  if 0 ≤ e then ((2 ^ e.toNat : Nat) : ℚ) else 1 / ((2 ^ (-e).toNat : Nat) : ℚ)

/-- The number of halvings that take `n` below 2, with `fuel` an upper bound for it. -/
def log2Fuel : Nat → Nat → Nat
  | 0, _ => 0
  | fuel + 1, n => if n < 2 then 0 else log2Fuel fuel (n / 2) + 1

/-- The position of the leading binary digit of `n`: `2 ^ log2 n ≤ n < 2 ^ (log2 n + 1)`. -/
def log2 (n : Nat) : Nat := log2Fuel n n

/-- The binary exponent of a positive rational: `2 ^ e ≤ q < 2 ^ (e + 1)`. -/
def floorLog2 (q : ℚ) : Int :=
  let k : Int := (log2 q.num.toNat : Int) - (log2 q.den : Int)
  if pow2 k ≤ q then k else k - 1

/-- The integer nearest to `q`, the even one of the two when `q` lies half-way. -/
def roundHalfEven (q : ℚ) : Int :=
  let f := Rat.floor q
  if q - f < 1 / 2 then f
  else if 1 / 2 < q - f then f + 1
  else if f % 2 = 0 then f else f + 1

/-- A positive rational rounded to 24 significant binary digits, to nearest and ties to even;
below `2 ^ (-126)` the spacing stays `2 ^ (-149)` (subnormal numbers). -/
def roundPos (q : ℚ) : ℚ :=
  let e := max (floorLog2 q) (-126)
  (roundHalfEven (q / pow2 (e - 23)) : ℚ) * pow2 (e - 23)

/-- The `float` that an exact result `q` is rounded to; a result that rounds to `2 ^ 128` or
beyond overflows to an infinity. -/
def ofRat (q : ℚ) : F32 :=
  if q = 0 then finite 0
  else if 0 < q then
    if roundPos q < pow2 128 then finite (roundPos q) else posInf
  else
    if roundPos (-q) < pow2 128 then finite (-roundPos (-q)) else negInf

/-- Whether a value is one a `float` variable can hold: rounding leaves it as it is. -/
def isFloat : F32 → Prop
  | finite q => ofRat q = finite q
  | _ => True

/-- Whether a value is one a `float` variable can hold is decided by rounding it. -/
instance decIsFloat : (x : F32) → Decidable x.isFloat
  | finite q => inferInstanceAs (Decidable (ofRat q = finite q))
  | posInf => isTrue trivial
  | negInf => isTrue trivial
  | nan => isTrue trivial

/-- Unary minus. -/
def neg : F32 → F32
  | finite q => finite (-q)
  | posInf => negInf
  | negInf => posInf
  | nan => nan

/-- Addition of two `float` values. -/
def add : F32 → F32 → F32
  | finite a, finite b => ofRat (a + b)
  | nan, _ => nan
  | _, nan => nan
  | posInf, negInf => nan
  | negInf, posInf => nan
  | posInf, _ => posInf
  | _, posInf => posInf
  | negInf, _ => negInf
  | _, negInf => negInf

/-- Subtraction of two `float` values. -/
def sub (a b : F32) : F32 := add a (neg b)

/-- Multiplication of two `float` values. -/
def mul : F32 → F32 → F32
  | finite a, finite b => ofRat (a * b)
  | nan, _ => nan
  | _, nan => nan
  | posInf, finite b => if b = 0 then nan else if 0 < b then posInf else negInf
  | negInf, finite b => if b = 0 then nan else if 0 < b then negInf else posInf
  | finite a, posInf => if a = 0 then nan else if 0 < a then posInf else negInf
  | finite a, negInf => if a = 0 then nan else if 0 < a then negInf else posInf
  | posInf, posInf => posInf
  | posInf, negInf => negInf
  | negInf, posInf => negInf
  | negInf, negInf => posInf

/-- Division of two `float` values; a zero divisor is taken as `+0`. -/
def div : F32 → F32 → F32
  | finite a, finite b =>
    if b = 0 then (if a = 0 then nan else if 0 < a then posInf else negInf)
    else ofRat (a / b)
  | nan, _ => nan
  | _, nan => nan
  | finite _, posInf => finite 0
  | finite _, negInf => finite 0
  | posInf, finite b => if 0 ≤ b then posInf else negInf
  | negInf, finite b => if 0 ≤ b then negInf else posInf
  | posInf, posInf => nan
  | posInf, negInf => nan
  | negInf, posInf => nan
  | negInf, negInf => nan

/-- The comparison `a < b` of two `float` values; false as soon as one of them is NaN. -/
def lt : F32 → F32 → Bool
  | finite a, finite b => decide (a < b)
  | finite _, posInf => true
  | negInf, finite _ => true
  | negInf, posInf => true
  | _, _ => false

instance : Zero F32 := ⟨finite 0⟩
instance : One F32 := ⟨finite 1⟩
instance : NatCast F32 := ⟨fun n => ofRat n⟩
instance : IntCast F32 := ⟨fun n => ofRat n⟩
instance : OfScientific F32 := ⟨fun m s e => ofRat (Rat.ofScientific m s e)⟩
instance : Add F32 := ⟨add⟩
instance : Sub F32 := ⟨sub⟩
instance : Mul F32 := ⟨mul⟩
instance : Div F32 := ⟨div⟩
instance : Neg F32 := ⟨neg⟩
instance : LT F32 := ⟨fun a b => lt a b = true⟩
instance : DecidableRel (fun a b : F32 => a < b) :=
  fun a b => inferInstanceAs (Decidable (lt a b = true))

end F32

end Float

section FormulaTheorems

variable {α : Type} [LinearOrderedField α]

/-- The sign flip `if (t < 0) t *= -1;` leaves the absolute value of `t`. -/
theorem flip_eq_abs (t : α) : (if t < 0 then t * (-1) else t) = |t| := by
  split_ifs with h
  · rw [abs_of_neg h]; ring
  · rw [abs_of_nonneg (not_lt.mp h)]

/-- C1: when a channel's formula index is 10, its formula returns exactly 0 at every `(x, y)`,
for every implementation of the math library and whatever the other fields of `global`
(in particular the other two indices) are. -/
theorem formula_off_returns_zero (m : MathLib α) (global : glob α) (x y : α) :
    redFormula m { global with rForm := 10 } x y = 0 ∧
    greenFormula m { global with gForm := 10 } x y = 0 ∧
    blueFormula m { global with bForm := 10 } x y = 0 := by
  simp [redFormula, greenFormula, blueFormula]

/-- C9, the claim as stated fails: blue formula 0 tests its denominator `x` against zero and,
at `x = 0` (here with `y = 2`), returns 1 and not 0. -/
theorem blueFormula_zero_guard_returns_one :
    blueFormula (MathLib.mk Real.sin Real.cos Real.tan Real.sqrt Real.rpow)
        (glob.mk 500 500 0 0 0 (-100) 100 (-100) 100) 0 2 = 1 ∧
      blueFormula (MathLib.mk Real.sin Real.cos Real.tan Real.sqrt Real.rpow)
        (glob.mk 500 500 0 0 0 (-100) 100 (-100) 100) 0 2 ≠ 0 := by
  simp [blueFormula]

/-- C9 amended: every formula that tests a denominator against zero returns 0 at each input
where that denominator is zero (red 0, 1, 2, 6, 9; green 3, 4, 7, 9; blue 1, 3, 4, 7; in red 6,
green 4 and green 9 the denominator is taken after `x` and `y` were replaced by their absolute
values), except blue 0, which returns 1 when its denominator `x` is zero. -/
theorem guarded_division_result (m : MathLib α) (global : glob α) (x y : α) :
    (global.rForm = 0 → y = 0 → redFormula m global x y = 0) ∧
    (global.rForm = 1 → m.cos y = 0 → redFormula m global x y = 0) ∧
    (global.rForm = 2 → m.cos (y * x) = 0 → redFormula m global x y = 0) ∧
    (global.rForm = 6 → m.tan (m.sqrt |y|) = 0 → redFormula m global x y = 0) ∧
    (global.rForm = 9 → y = 0 → redFormula m global x y = 0) ∧
    (global.gForm = 3 → y = 0 → greenFormula m global x y = 0) ∧
    (global.gForm = 4 → m.tan (|x| * |y|) = 0 → greenFormula m global x y = 0) ∧
    (global.gForm = 7 → m.cos x = 0 → greenFormula m global x y = 0) ∧
    (global.gForm = 9 → m.sin |x| = 0 → greenFormula m global x y = 0) ∧
    (global.bForm = 0 → x = 0 → blueFormula m global x y = 1) ∧
    (global.bForm = 1 → x = 0 → blueFormula m global x y = 0) ∧
    (global.bForm = 3 → y = 0 → blueFormula m global x y = 0) ∧
    (global.bForm = 4 → y = 0 ∨ m.sin (x / y) = 0 → blueFormula m global x y = 0) ∧
    (global.bForm = 7 → x = 0 → blueFormula m global x y = 0) := by
  refine ⟨?_, ?_, ?_, ?_, ?_, ?_, ?_, ?_, ?_, ?_, ?_, ?_, ?_, ?_⟩
  · intro h hd; simp [redFormula, h, hd]
  · intro h hd; simp [redFormula, h, hd]
  · intro h hd; simp [redFormula, h, hd]
  · intro h hd; simp only [redFormula, h, flip_eq_abs, hd]; simp
  · intro h hd; simp [redFormula, h, hd]
  · intro h hd; simp [greenFormula, h, hd]
  · intro h hd; simp only [greenFormula, h, flip_eq_abs, hd]; simp
  · intro h hd; simp [greenFormula, h, hd]
  · intro h hd; simp only [greenFormula, h, flip_eq_abs, hd]; simp
  · intro h hd; simp [blueFormula, h, hd]
  · intro h hd; simp [blueFormula, h, hd]
  · intro h hd; simp [blueFormula, h, hd]
  · intro h hd
    rcases hd with hd | hd
    · simp [blueFormula, h, hd]
    · simp [blueFormula, h, hd]
  · intro h hd; simp [blueFormula, h, hd]

/-- The theorem `guarded_division_result` applied with the real functions: red 0 at `y = 0`,
red 1 at `y = π / 2`, green 9 at `x = 0`, blue 0 at `x = 0`, blue 4 at `x = 0`, `y = 1`. -/
theorem guarded_division_result_witness :
    redFormula (MathLib.mk Real.sin Real.cos Real.tan Real.sqrt Real.rpow)
        (glob.mk 500 500 0 3 0 (-100) 100 (-100) 100) 3 0 = 0 ∧
      redFormula (MathLib.mk Real.sin Real.cos Real.tan Real.sqrt Real.rpow)
        (glob.mk 500 500 1 3 0 (-100) 100 (-100) 100) 3 (Real.pi / 2) = 0 ∧
      greenFormula (MathLib.mk Real.sin Real.cos Real.tan Real.sqrt Real.rpow)
        (glob.mk 500 500 0 9 0 (-100) 100 (-100) 100) 0 5 = 0 ∧
      blueFormula (MathLib.mk Real.sin Real.cos Real.tan Real.sqrt Real.rpow)
        (glob.mk 500 500 0 3 0 (-100) 100 (-100) 100) 0 5 = 1 ∧
      blueFormula (MathLib.mk Real.sin Real.cos Real.tan Real.sqrt Real.rpow)
        (glob.mk 500 500 0 3 4 (-100) 100 (-100) 100) 0 1 = 0 :=
  ⟨(guarded_division_result _ _ 3 0).1 rfl rfl,
   (guarded_division_result _ _ 3 (Real.pi / 2)).2.1 rfl Real.cos_pi_div_two,
   (guarded_division_result _ _ 0 5).2.2.2.2.2.2.2.2.1 rfl (by simp),
   (guarded_division_result _ _ 0 5).2.2.2.2.2.2.2.2.2.1 rfl rfl,
   (guarded_division_result _ _ 0 1).2.2.2.2.2.2.2.2.2.2.2.2.1 rfl (Or.inr (by simp))⟩

/-- In arithmetic without rounding every value passed to `sqrt` by a formula is non-negative,
for all `x` and `y`, as soon as `sin` and `tan` are odd functions (as the real sine and tangent are): red 3, red 6,
green 4 and green 9 pass `|x|`, `|y|` or `|x| * |y|`, and the sign flip of `x` in green 6 and
blue 6 makes `tan (x * y)`, respectively `sin x`, non-negative where `sqrt` is applied. -/
theorem sqrt_args_nonneg_exact (m : MathLib α) (hsin : ∀ t, m.sin (-t) = -m.sin t)
    (htan : ∀ t, m.tan (-t) = -m.tan t) (global : glob α) (x y : α) :
    (∀ a ∈ redSqrtArgs m global x y, 0 ≤ a) ∧
    (∀ a ∈ greenSqrtArgs m global x y, 0 ≤ a) ∧
    (∀ a ∈ blueSqrtArgs m global x y, 0 ≤ a) := by
  have hx6 : 0 ≤ m.tan ((if m.tan (x * y) < 0 then x * (-1) else x) * y) := by
    split_ifs with ht
    · have e : x * (-1) * y = -(x * y) := by ring
      rw [e, htan]
      linarith
    · exact not_lt.mp ht
  have hb6 : 0 ≤ m.sin (if m.sin x < 0 then x * (-1) else x) := by
    split_ifs with ht
    · have e : x * (-1) = -x := by ring
      rw [e, hsin]
      linarith
    · exact not_lt.mp ht
  refine ⟨?_, ?_, ?_⟩
  · intro a ha
    unfold redSqrtArgs at ha
    simp only [flip_eq_abs] at ha
    by_cases h3 : global.rForm = 3
    · simp [h3] at ha
      rcases ha with rfl | rfl <;> exact abs_nonneg _
    · by_cases h6 : global.rForm = 6
      · have ha2 : a = |y| := by
          simp only [h6, show ¬ ((6 : Int) = 3) by decide, if_false, if_true] at ha
          split_ifs at ha <;> simp at ha <;> exact ha
        rw [ha2]; exact abs_nonneg _
      · simp [h3, h6] at ha
  · intro a ha
    unfold greenSqrtArgs at ha
    simp only [flip_eq_abs] at ha
    generalize (if m.tan (x * y) < 0 then x * (-1) else x) = x6 at ha hx6
    by_cases h4 : global.gForm = 4
    · by_cases ht : m.tan (|x| * |y|) = 0
      · simp [h4, ht] at ha
      · simp [h4, ht] at ha
        rw [ha]; exact mul_nonneg (abs_nonneg _) (abs_nonneg _)
    · by_cases h6 : global.gForm = 6
      · simp [h6] at ha
        rw [ha]; exact hx6
      · by_cases h9 : global.gForm = 9
        · by_cases ht : m.sin |x| = 0
          · simp [h9, ht] at ha
          · simp [h9, ht] at ha
            rcases ha with rfl | rfl <;> exact abs_nonneg _
        · simp [h4, h6, h9] at ha
  · intro a ha
    unfold blueSqrtArgs at ha
    generalize (if m.sin x < 0 then x * (-1) else x) = x6 at ha hb6
    by_cases h6 : global.bForm = 6
    · simp [h6] at ha
      rw [ha]; exact hb6
    · simp [h6] at ha

end FormulaTheorems

section GenericTheorems

variable {α : Type} [Zero α] [One α] [NatCast α] [IntCast α] [OfScientific α]
  [Add α] [Sub α] [Mul α] [Div α] [Neg α] [LT α] [DecidableEq α]
  [DecidableRel (fun a b : α => a < b)]

/-- The inner loop emits one point per iteration. -/
theorem draw_column_length (m : MathLib α) (global : glob α) (x : α) (n : Nat) (y : α) :
    (draw_column m global x n y).length = n := by
  induction n generalizing y with
  | zero => rfl
  | succ n ih => simp [draw_column, ih]

/-- The point emitted by iteration `row` of the inner loop: `y` has been advanced `row` times
by the statement `y += (yMax - yMin) / h`. -/
theorem draw_column_get (m : MathLib α) (global : glob α) (x : α) (n : Nat) (y : α)
    (row : Nat) (hrow : row < n) :
    (draw_column m global x n y)[row]? =
      some (Point.mk x
        (Nat.iterate (fun t => t + (global.yMax - global.yMin) / (global.h : α)) row y)
        (redFormula m global x
          (Nat.iterate (fun t => t + (global.yMax - global.yMin) / (global.h : α)) row y))
        (greenFormula m global x
          (Nat.iterate (fun t => t + (global.yMax - global.yMin) / (global.h : α)) row y))
        (blueFormula m global x
          (Nat.iterate (fun t => t + (global.yMax - global.yMin) / (global.h : α)) row y))) := by
  induction n generalizing y row with
  | zero => omega
  | succ n ih =>
    cases row with
    | zero => simp [draw_column]
    | succ row =>
      simp only [draw_column, List.getElem?_cons_succ, Function.iterate_succ_apply]
      exact ih _ row (by omega)

/-- The outer loop emits `h` points per iteration. -/
theorem draw_columns_length (m : MathLib α) (global : glob α) (n : Nat) (x : α) :
    (draw_columns m global n x).length = n * global.h.toNat := by
  induction n generalizing x with
  | zero => simp [draw_columns]
  | succ n ih => simp [draw_columns, draw_column_length, ih]; ring

/-- The points of column `col` follow the points of the columns before it, and `x` has been
advanced `col` times by the statement `x += (xMax - xMin) / w`. -/
theorem draw_columns_get (m : MathLib α) (global : glob α) (n : Nat) (x : α)
    (col row : Nat) (hcol : col < n) (hrow : row < global.h.toNat) :
    (draw_columns m global n x)[col * global.h.toNat + row]? =
      (draw_column m global
        (Nat.iterate (fun t => t + (global.xMax - global.xMin) / (global.w : α)) col x)
        global.h.toNat global.yMin)[row]? := by
  induction n generalizing x col with
  | zero => omega
  | succ n ih =>
    cases col with
    | zero =>
      simp only [draw_columns, Nat.zero_mul, Nat.zero_add, Function.iterate_zero, id_eq]
      rw [List.getElem?_append_left (by rw [draw_column_length]; exact hrow)]
    | succ col =>
      simp only [draw_columns, Function.iterate_succ_apply]
      rw [List.getElem?_append_right (by rw [draw_column_length]; nlinarith),
        draw_column_length]
      have e2 : (col + 1) * global.h.toNat + row - global.h.toNat
          = col * global.h.toNat + row := by
        rw [Nat.succ_mul]; omega
      rw [e2, ih _ col (by omega)]

/-- One pass of `draw_texture` emits `w * h` points, and the point with index
`col * h + row` is the one at the accumulated position of column `col` and row `row`. -/
theorem draw_texture_get (m : MathLib α) (global : glob α)
    (hw : 1 ≤ global.w) (hh : 1 ≤ global.h) :
    ((draw_texture m global).length : Int) = global.w * global.h ∧
    ∀ col row : Nat, (col : Int) < global.w → (row : Int) < global.h →
      (draw_texture m global)[col * global.h.toNat + row]?
        = some (loopPoint m global col row) := by
  have hW : ((global.w.toNat : Nat) : Int) = global.w := Int.toNat_of_nonneg (by omega)
  have hH : ((global.h.toNat : Nat) : Int) = global.h := Int.toNat_of_nonneg (by omega)
  constructor
  · rw [draw_texture, draw_columns_length, Nat.cast_mul, hW, hH]
  · intro col row hcol hrow
    rw [draw_texture, draw_columns_get m global _ _ col row (by omega) (by omega),
      draw_column_get m global _ _ _ row (by omega)]
    rfl

end GenericTheorems

section FloatTheorems

set_option maxRecDepth 100000

/-- Rounding commutes with the sign. -/
theorem F32.ofRat_neg (q : ℚ) : F32.ofRat (-q) = F32.neg (F32.ofRat q) := by
  unfold F32.ofRat
  rcases lt_trichotomy q 0 with h | h | h
  · have h1 : ¬ q = 0 := ne_of_lt h
    have h2 : ¬ (0 < q) := not_lt.mpr (le_of_lt h)
    have h3 : ¬ (-q = 0) := by simpa using h1
    have h4 : 0 < -q := by linarith
    simp only [h1, h2, h3, h4, if_true, if_false]
    split_ifs <;> simp [F32.neg]
  · subst h; simp [F32.neg]
  · have h1 : ¬ q = 0 := ne_of_gt h
    have h3 : ¬ (-q = 0) := by simpa using h1
    have h4 : ¬ (0 < -q) := by linarith
    simp only [h1, h, h3, h4, if_true, if_false, neg_neg]
    split_ifs <;> simp [F32.neg]

/-- Powers of two are positive. -/
theorem F32.pow2_pos (e : Int) : 0 < F32.pow2 e := by
  unfold F32.pow2
  split_ifs <;> positivity

/-- The nearest integer of a non-negative rational is non-negative. -/
theorem F32.roundHalfEven_nonneg (q : ℚ) (h : 0 ≤ q) : 0 ≤ F32.roundHalfEven q := by
  have hf : 0 ≤ Rat.floor q := Rat.le_floor.mpr (by simpa using h)
  unfold F32.roundHalfEven
  simp only
  split_ifs <;> omega

/-- Rounding to 24 binary digits keeps a non-negative rational non-negative. -/
theorem F32.roundPos_nonneg (q : ℚ) (h : 0 ≤ q) : 0 ≤ F32.roundPos q := by
  unfold F32.roundPos
  simp only
  apply mul_nonneg
  · exact_mod_cast F32.roundHalfEven_nonneg _ (div_nonneg h (le_of_lt (F32.pow2_pos _)))
  · exact le_of_lt (F32.pow2_pos _)

/-- The rounded value of a non-negative exact result is not below zero. -/
theorem F32.ofRat_not_lt_zero (q : ℚ) (h : 0 ≤ q) : ¬ (F32.ofRat q < 0) := by
  show ¬ (F32.lt (F32.ofRat q) (F32.finite 0) = true)
  unfold F32.ofRat
  rcases eq_or_lt_of_le h with h0 | h0
  · simp [← h0, F32.lt]
  · have h1 : ¬ q = 0 := ne_of_gt h0
    simp only [h1, h0, if_true, if_false]
    split_ifs
    · simp [F32.lt, F32.roundPos_nonneg q h]
    · simp [F32.lt]

/-- Multiplying by the constant `-1` flips the sign of a `float`. -/
theorem F32.mul_neg_one (x : F32) (hx : x.isFloat) : x * (-1) = -x := by
  show F32.mul x (F32.neg (F32.finite 1)) = F32.neg x
  cases x with
  | finite q =>
    have e : q * -1 = -q := by ring
    simp only [F32.neg, F32.mul, e, F32.ofRat_neg]
    rw [show F32.ofRat q = F32.finite q from hx]
  | posInf => norm_num [F32.neg, F32.mul]
  | negInf => norm_num [F32.neg, F32.mul]
  | nan => simp [F32.neg, F32.mul]

/-- The sign of a product follows the sign of its first factor. -/
theorem F32.neg_mul (x y : F32) : (-x) * y = -(x * y) := by
  show F32.mul (F32.neg x) y = F32.neg (F32.mul x y)
  cases x with
  | finite a =>
    cases y with
    | finite b =>
      have e : -a * b = -(a * b) := by ring
      simp only [F32.neg, F32.mul, e, F32.ofRat_neg]
    | posInf =>
      simp only [F32.neg, F32.mul]
      rcases lt_trichotomy a 0 with h | h | h
      · have h1 : ¬ a = 0 := ne_of_lt h
        have h2 : ¬ (0 < a) := not_lt.mpr (le_of_lt h)
        simp [h1, h2, h, F32.neg]
      · simp [h, F32.neg]
      · have h1 : ¬ a = 0 := ne_of_gt h
        have h2 : ¬ (a < 0) := not_lt.mpr (le_of_lt h)
        simp [h1, h2, h, F32.neg]
    | negInf =>
      simp only [F32.neg, F32.mul]
      rcases lt_trichotomy a 0 with h | h | h
      · have h1 : ¬ a = 0 := ne_of_lt h
        have h2 : ¬ (0 < a) := not_lt.mpr (le_of_lt h)
        simp [h1, h2, h, F32.neg]
      · simp [h, F32.neg]
      · have h1 : ¬ a = 0 := ne_of_gt h
        have h2 : ¬ (a < 0) := not_lt.mpr (le_of_lt h)
        simp [h1, h2, h, F32.neg]
    | nan => simp [F32.neg, F32.mul]
  | posInf =>
    cases y with
    | finite b => simp only [F32.neg, F32.mul]; split_ifs <;> simp [F32.neg]
    | posInf => simp [F32.neg, F32.mul]
    | negInf => simp [F32.neg, F32.mul]
    | nan => simp [F32.neg, F32.mul]
  | negInf =>
    cases y with
    | finite b => simp only [F32.neg, F32.mul]; split_ifs <;> simp [F32.neg]
    | posInf => simp [F32.neg, F32.mul]
    | negInf => simp [F32.neg, F32.mul]
    | nan => simp [F32.neg, F32.mul]
  | nan => cases y <;> simp [F32.neg, F32.mul]

/-- The opposite of a value below zero is not below zero, and it is not NaN. -/
theorem F32.neg_of_lt_zero (a : F32) (h : a < 0) : ¬ (-a < 0) ∧ -a ≠ F32.nan := by
  have h' : F32.lt a (F32.finite 0) = true := h
  show ¬ (F32.lt (F32.neg a) (F32.finite 0) = true) ∧ F32.neg a ≠ F32.nan
  cases a with
  | finite q =>
    simp only [F32.lt, decide_eq_true_eq] at h'
    simp only [F32.neg, F32.lt, decide_eq_true_eq]
    exact ⟨by linarith, by simp⟩
  | posInf => simp [F32.lt] at h'
  | negInf => simp [F32.neg, F32.lt]
  | nan => simp [F32.lt] at h'

/-- An infinity times a finite value that is not below zero is not below zero. -/
theorem F32.posInf_mul_not_lt_zero (q : ℚ) (h : 0 ≤ q) :
    ¬ (F32.lt (if q = 0 then F32.nan else if 0 < q then F32.posInf else F32.negInf)
      (F32.finite 0) = true) := by
  rcases eq_or_lt_of_le h with h0 | h0
  · simp [← h0, F32.lt]
  · have h1 : ¬ q = 0 := ne_of_gt h0
    simp [h1, h0, F32.lt]

/-- The product of two values that are not below zero is not below zero. -/
theorem F32.mul_not_lt_zero (a b : F32) (ha : ¬ (a < 0)) (hb : ¬ (b < 0)) :
    ¬ (a * b < 0) := by
  have ha' : ¬ (F32.lt a (F32.finite 0) = true) := ha
  have hb' : ¬ (F32.lt b (F32.finite 0) = true) := hb
  show ¬ (F32.lt (F32.mul a b) (F32.finite 0) = true)
  cases a with
  | finite p =>
    simp only [F32.lt, decide_eq_true_eq, not_lt] at ha'
    cases b with
    | finite q =>
      simp only [F32.lt, decide_eq_true_eq, not_lt] at hb'
      exact F32.ofRat_not_lt_zero _ (mul_nonneg ha' hb')
    | posInf => exact F32.posInf_mul_not_lt_zero p ha'
    | negInf => simp [F32.lt] at hb'
    | nan => simp [F32.mul, F32.lt]
  | posInf =>
    cases b with
    | finite q =>
      simp only [F32.lt, decide_eq_true_eq, not_lt] at hb'
      exact F32.posInf_mul_not_lt_zero q hb'
    | posInf => simp [F32.mul, F32.lt]
    | negInf => simp [F32.lt] at hb'
    | nan => simp [F32.mul, F32.lt]
  | negInf => simp [F32.lt] at ha'
  | nan => cases b <;> simp [F32.mul, F32.lt]

/-- The sign flip `if (t < 0) t *= -1;` leaves a value that is not below zero. -/
theorem F32.flip_not_lt_zero (t : F32) : ¬ ((if t < 0 then t * (-1) else t) < 0) := by
  split_ifs with h
  · have h' : F32.lt t (F32.finite 0) = true := h
    show ¬ (F32.lt (F32.mul t (F32.neg (F32.finite 1))) (F32.finite 0) = true)
    cases t with
    | finite q =>
      simp only [F32.lt, decide_eq_true_eq] at h'
      have e : q * -1 = -q := by ring
      simp only [F32.neg, F32.mul, e]
      exact F32.ofRat_not_lt_zero _ (by linarith)
    | posInf => simp [F32.lt] at h'
    | negInf => norm_num [F32.neg, F32.mul, F32.lt]
    | nan => simp [F32.lt] at h'
  · exact h

/-- C7, the claim as stated fails on `float`: in the start-up window (500 x 500 over
`[-100, 100] x [-100, 100]`) the point of column 3, row 0 is emitted at
`x = -12949913 / 131072` (about -98.7999954), while the closed form gives -98.8 in real
arithmetic and `-6474957 / 65536` (about -98.8000031) when evaluated in `float`; the point of
column 499 is emitted at `x = 13054833 / 131072` (about 99.60047), while the closed form
gives 99.6, respectively `3263693 / 32768` (about 99.6000061). -/
theorem draw_texture_float_position_differs :
    (∀ m : MathLib F32,
      ((draw_texture m (glob.mk 500 500 10 10 10 (-100) 100 (-100) 100))[3 * 500 + 0]?).map
        Point.x = some (F32.finite (-12949913 / 131072))) ∧
    specX (glob.mk 500 500 10 10 10 (-100 : F32) 100 (-100) 100) 3
      = F32.finite (-6474957 / 65536) ∧
    specX (glob.mk 500 500 10 10 10 (-100 : ℚ) 100 (-100) 100) 3 = -494 / 5 ∧
    (∀ m : MathLib F32,
      ((draw_texture m (glob.mk 500 500 10 10 10 (-100) 100 (-100) 100))[499 * 500 + 0]?).map
        Point.x = some (F32.finite (13054833 / 131072))) ∧
    specX (glob.mk 500 500 10 10 10 (-100 : F32) 100 (-100) 100) 499
      = F32.finite (3263693 / 32768) ∧
    specX (glob.mk 500 500 10 10 10 (-100 : ℚ) 100 (-100) 100) 499 = 498 / 5 ∧
    (∀ m : MathLib F32,
      (draw_texture m (glob.mk 500 500 10 10 10 (-100) 100 (-100) 100))[3 * 500 + 0]?
        ≠ some (specPoint m (glob.mk 500 500 10 10 10 (-100) 100 (-100) 100) 3 0)) := by
  have h3 : loopX (glob.mk 500 500 10 10 10 (-100 : F32) 100 (-100) 100) 3
      = F32.finite (-12949913 / 131072) := by decide!
  have h499 : loopX (glob.mk 500 500 10 10 10 (-100 : F32) 100 (-100) 100) 499
      = F32.finite (13054833 / 131072) := by decide!
  have s3 : specX (glob.mk 500 500 10 10 10 (-100 : F32) 100 (-100) 100) 3
      = F32.finite (-6474957 / 65536) := by decide!
  have hget : ∀ (m : MathLib F32) (col : Nat), (col : Int) < 500 →
      ((draw_texture m (glob.mk 500 500 10 10 10 (-100) 100 (-100) 100))[col * 500 + 0]?).map
        Point.x = some (loopX (glob.mk 500 500 10 10 10 (-100 : F32) 100 (-100) 100) col) := by
    intro m col hcol
    have h := (draw_texture_get m (glob.mk 500 500 10 10 10 (-100) 100 (-100) 100)
      (by decide) (by decide)).2 col 0 hcol (by decide)
    exact (congrArg (Option.map Point.x) h).trans rfl
  refine ⟨?_, s3, by norm_num [specX], ?_, by decide!, by norm_num [specX], ?_⟩
  · intro m
    rw [hget m 3 (by decide), h3]
  · intro m
    rw [hget m 499 (by decide), h499]
  · intro m heq
    have hx := congrArg (Option.map Point.x) heq
    rw [hget m 3 (by decide), h3] at hx
    simp only [Option.map, specPoint, s3, Option.some.injEq, F32.finite.injEq] at hx
    norm_num at hx

/-- After the sign flip of green 6 the value `tan (x * y)` is not below zero, and it is NaN
only when it was NaN before the flip. -/
theorem F32.green_six_arg (m : MathLib F32) (htan : ∀ t, m.tan (-t) = -m.tan t)
    (x y : F32) (hx : x.isFloat) :
    ¬ (m.tan ((if m.tan (x * y) < 0 then x * (-1) else x) * y) < 0) ∧
    (m.tan ((if m.tan (x * y) < 0 then x * (-1) else x) * y) = F32.nan →
      m.tan (x * y) = F32.nan) := by
  split_ifs with ht
  · rw [F32.mul_neg_one x hx, F32.neg_mul, htan]
    exact ⟨(F32.neg_of_lt_zero _ ht).1, fun h => absurd h (F32.neg_of_lt_zero _ ht).2⟩
  · exact ⟨ht, fun h => h⟩

/-- After the sign flip of blue 6 the value `sin x` is not below zero, and it is NaN only
when it was NaN before the flip. -/
theorem F32.blue_six_arg (m : MathLib F32) (hsin : ∀ t, m.sin (-t) = -m.sin t)
    (x : F32) (hx : x.isFloat) :
    ¬ (m.sin (if m.sin x < 0 then x * (-1) else x) < 0) ∧
    (m.sin (if m.sin x < 0 then x * (-1) else x) = F32.nan → m.sin x = F32.nan) := by
  split_ifs with ht
  · rw [F32.mul_neg_one x hx, hsin]
    exact ⟨(F32.neg_of_lt_zero _ ht).1, fun h => absurd h (F32.neg_of_lt_zero _ ht).2⟩
  · exact ⟨ht, fun h => h⟩

/-- C10, the claim as stated fails on `float`: at `x = y = 1e20f` (the `float` nearest to
`10 ^ 20`) the product `x * y` overflows to `+infinity`; for every math library that
returns NaN for the tangent of an infinity (as C requires), `NaN < 0` is false, so green 6
flips nothing and `greenFormula` calls `sqrt` on NaN, a value that is neither zero nor above
zero. Such libraries with odd `sin` and `tan` exist. -/
theorem greenFormula_six_sqrt_of_nan :
    (100000000000000000000 : F32) = F32.finite 100000002004087734272 ∧
    F32.finite 100000002004087734272 * F32.finite 100000002004087734272 = F32.posInf ∧
    (∀ m : MathLib F32, m.tan F32.posInf = F32.nan →
      greenSqrtArgs m (glob.mk 500 500 0 6 0 (-100) 100 (-100) 100)
        (F32.finite 100000002004087734272) (F32.finite 100000002004087734272)
        = [F32.nan]) ∧
    (∀ m : MathLib F32, m.tan F32.posInf = F32.nan →
      greenFormula m (glob.mk 500 500 0 6 0 (-100) 100 (-100) 100)
        (F32.finite 100000002004087734272) (F32.finite 100000002004087734272)
        = m.sin (m.cos (m.sqrt F32.nan))) ∧
    ¬ ((0 : F32) < F32.nan) ∧ F32.nan ≠ (0 : F32) ∧
    (∃ m : MathLib F32, m.tan F32.posInf = F32.nan ∧
      (∀ t, m.sin (-t) = -m.sin t) ∧ (∀ t, m.tan (-t) = -m.tan t)) := by
  have hmul : F32.finite 100000002004087734272 * F32.finite 100000002004087734272
      = F32.posInf := by decide!
  have hnan : ¬ (F32.nan < (0 : F32)) := by decide
  refine ⟨by decide!, hmul, ?_, ?_, by decide, by decide, ?_⟩
  · intro m hm
    have ht : m.tan (F32.finite 100000002004087734272 * F32.finite 100000002004087734272)
        = F32.nan := by rw [hmul]; exact hm
    simp [greenSqrtArgs, ht, hnan]
  · intro m hm
    have ht : m.tan (F32.finite 100000002004087734272 * F32.finite 100000002004087734272)
        = F32.nan := by rw [hmul]; exact hm
    simp [greenFormula, ht, hnan]
  · refine ⟨MathLib.mk (fun t => t) (fun t => t)
      (fun t => match t with
        | F32.finite q => F32.finite q
        | _ => F32.nan) (fun t => t) (fun a _ => a), rfl, fun _ => rfl, ?_⟩
    intro t
    cases t <;> rfl

/-- C10 amended: every value a formula passes to `sqrt` (red 3, red 6, green 4, green 6,
green 9, blue 6) is never below zero, for all `float` values `x` and `y` and every math
library with odd `sin` and `tan`: it is a non-negative number, `+infinity` or NaN. Red 3,
red 6, green 4 and green 9 pass the sign-flipped `x`, `y` or their product; in green 6 and
blue 6 the sign flip of `x` makes `tan (x * y)`, respectively `sin x`, not negative, and the
value passed is NaN only when `tan (x * y)`, respectively `sin x`, is NaN (as when `x * y`
overflows). The listed values are the ones the formulas consult: each formula depends on
`sqrt` only through its values at them, so the value of each formula is the same for any two
`sqrt` functions that agree on the arguments that are not below zero. -/
theorem sqrt_args_not_negative (m : MathLib F32) (hsin : ∀ t, m.sin (-t) = -m.sin t)
    (htan : ∀ t, m.tan (-t) = -m.tan t) (global : glob F32) (x y : F32)
    (hx : x.isFloat) :
    (∀ a ∈ redSqrtArgs m global x y, ¬ (a < 0)) ∧
    (∀ a ∈ greenSqrtArgs m global x y, ¬ (a < 0)) ∧
    (∀ a ∈ blueSqrtArgs m global x y, ¬ (a < 0)) ∧
    (global.gForm = 6 → ∀ a ∈ greenSqrtArgs m global x y,
      a = F32.nan → m.tan (x * y) = F32.nan) ∧
    (global.bForm = 6 → ∀ a ∈ blueSqrtArgs m global x y,
      a = F32.nan → m.sin x = F32.nan) ∧
    (∀ s : F32 → F32, (∀ a ∈ redSqrtArgs m global x y, m.sqrt a = s a) →
      redFormula m global x y = redFormula { m with sqrt := s } global x y) ∧
    (∀ s : F32 → F32, (∀ a ∈ greenSqrtArgs m global x y, m.sqrt a = s a) →
      greenFormula m global x y = greenFormula { m with sqrt := s } global x y) ∧
    (∀ s : F32 → F32, (∀ a ∈ blueSqrtArgs m global x y, m.sqrt a = s a) →
      blueFormula m global x y = blueFormula { m with sqrt := s } global x y) ∧
    (∀ s : F32 → F32, (∀ a, ¬ (a < 0) → m.sqrt a = s a) →
      redFormula m global x y = redFormula { m with sqrt := s } global x y ∧
      greenFormula m global x y = greenFormula { m with sqrt := s } global x y ∧
      blueFormula m global x y = blueFormula { m with sqrt := s } global x y) := by
  have hg6 := F32.green_six_arg m htan x y hx
  have hb6 := F32.blue_six_arg m hsin x hx
  have hfx := F32.flip_not_lt_zero x
  have hfy := F32.flip_not_lt_zero y
  have hred : ∀ a ∈ redSqrtArgs m global x y, ¬ (a < 0) := by
    intro a ha
    unfold redSqrtArgs at ha
    generalize (if x < 0 then x * (-1) else x) = x3 at ha hfx
    generalize (if y < 0 then y * (-1) else y) = y3 at ha hfy
    by_cases h3 : global.rForm = 3
    · simp [h3] at ha
      rcases ha with rfl | rfl
      · exact hfx
      · exact hfy
    · by_cases h6 : global.rForm = 6
      · have ha2 : a = y3 := by
          simp only [h6, show ¬ ((6 : Int) = 3) by decide, if_false, if_true] at ha
          split_ifs at ha <;> simp at ha <;> exact ha
        rw [ha2]; exact hfy
      · simp [h3, h6] at ha
  have hgreen : ∀ a ∈ greenSqrtArgs m global x y, ¬ (a < 0) := by
    intro a ha
    unfold greenSqrtArgs at ha
    have hprod := F32.mul_not_lt_zero _ _ hfx hfy
    generalize (if m.tan (x * y) < 0 then x * (-1) else x) = x6 at ha hg6
    generalize (if x < 0 then x * (-1) else x) = x3 at ha hfx hprod
    generalize (if y < 0 then y * (-1) else y) = y3 at ha hfy hprod
    by_cases h4 : global.gForm = 4
    · by_cases ht : m.tan (x3 * y3) = 0
      · simp [h4, ht] at ha
      · simp [h4, ht] at ha
        rw [ha]; exact hprod
    · by_cases h6 : global.gForm = 6
      · simp [h6] at ha
        rw [ha]; exact hg6.1
      · by_cases h9 : global.gForm = 9
        · by_cases ht : m.sin x3 = 0
          · simp [h9, ht] at ha
          · simp [h9, ht] at ha
            rcases ha with rfl | rfl
            · exact hfx
            · exact hfy
        · simp [h4, h6, h9] at ha
  have hblue : ∀ a ∈ blueSqrtArgs m global x y, ¬ (a < 0) := by
    intro a ha
    unfold blueSqrtArgs at ha
    generalize (if m.sin x < 0 then x * (-1) else x) = x6 at ha hb6
    by_cases h6 : global.bForm = 6
    · simp [h6] at ha
      rw [ha]; exact hb6.1
    · simp [h6] at ha
  have cred : ∀ s : F32 → F32, (∀ a ∈ redSqrtArgs m global x y, m.sqrt a = s a) →
      redFormula m global x y = redFormula { m with sqrt := s } global x y := by
    intro s h
    unfold redSqrtArgs at h
    unfold redFormula
    generalize (if x < 0 then x * (-1) else x) = x3 at h ⊢
    generalize (if y < 0 then y * (-1) else y) = y3 at h ⊢
    by_cases h3 : global.rForm = 3
    · simp [h3] at h ⊢
      rw [h.1, h.2]
    · by_cases h6 : global.rForm = 6
      · have hy : m.sqrt y3 = s y3 := by
          apply h
          simp only [h6]
          split_ifs <;> simp
        simp [h6, hy]
      · simp [h3, h6]
  have cgreen : ∀ s : F32 → F32, (∀ a ∈ greenSqrtArgs m global x y, m.sqrt a = s a) →
      greenFormula m global x y = greenFormula { m with sqrt := s } global x y := by
    intro s h
    unfold greenSqrtArgs at h
    unfold greenFormula
    generalize (if m.tan (x * y) < 0 then x * (-1) else x) = x6 at h ⊢
    generalize (if x < 0 then x * (-1) else x) = x3 at h ⊢
    generalize (if y < 0 then y * (-1) else y) = y3 at h ⊢
    by_cases h4 : global.gForm = 4
    · by_cases ht : m.tan (x3 * y3) = 0
      · simp [h4, ht]
      · simp [h4, ht] at h ⊢
        rw [h]
    · by_cases h6 : global.gForm = 6
      · simp [h6] at h ⊢
        rw [h]
      · by_cases h9 : global.gForm = 9
        · by_cases ht : m.sin x3 = 0
          · simp [h9, ht]
          · simp [h9, ht] at h ⊢
            rw [h.1, h.2]
        · simp [h4, h6, h9]
  have cblue : ∀ s : F32 → F32, (∀ a ∈ blueSqrtArgs m global x y, m.sqrt a = s a) →
      blueFormula m global x y = blueFormula { m with sqrt := s } global x y := by
    intro s h
    unfold blueSqrtArgs at h
    unfold blueFormula
    generalize (if m.sin x < 0 then x * (-1) else x) = x6 at h ⊢
    by_cases h6 : global.bForm = 6
    · simp only [h6, if_true, List.mem_singleton, forall_eq] at h
      simp [h6, h]
    · simp [h6]
  refine ⟨hred, hgreen, hblue, ?_, ?_, cred, cgreen, cblue,
    fun s h => ⟨cred s (fun a ha => h a (hred a ha)),
      cgreen s (fun a ha => h a (hgreen a ha)),
      cblue s (fun a ha => h a (hblue a ha))⟩⟩
  · intro h6 a ha hn
    unfold greenSqrtArgs at ha
    generalize (if m.tan (x * y) < 0 then x * (-1) else x) = x6 at ha hg6
    simp [h6] at ha
    rw [ha] at hn
    exact hg6.2 hn
  · intro h6 a ha hn
    unfold blueSqrtArgs at ha
    generalize (if m.sin x < 0 then x * (-1) else x) = x6 at ha hb6
    simp [h6] at ha
    rw [ha] at hn
    exact hb6.2 hn

/-- The theorem `sqrt_args_not_negative` applied at `x = -4`, `y = 9` for red 3, green 6 and
blue 6, with a library whose `sin` and `tan` return their argument (odd functions). -/
theorem sqrt_args_not_negative_witness :
    (∀ a ∈ redSqrtArgs
        (MathLib.mk (fun t => t) (fun t => t) (fun t => t) (fun t => t) (fun a _ => a))
        (glob.mk 500 500 3 6 6 (-100) 100 (-100) 100) (F32.finite (-4)) (F32.finite 9),
      ¬ (a < 0)) ∧
    (∀ a ∈ greenSqrtArgs
        (MathLib.mk (fun t => t) (fun t => t) (fun t => t) (fun t => t) (fun a _ => a))
        (glob.mk 500 500 3 6 6 (-100) 100 (-100) 100) (F32.finite (-4)) (F32.finite 9),
      ¬ (a < 0)) ∧
    (∀ a ∈ blueSqrtArgs
        (MathLib.mk (fun t => t) (fun t => t) (fun t => t) (fun t => t) (fun a _ => a))
        (glob.mk 500 500 3 6 6 (-100) 100 (-100) 100) (F32.finite (-4)) (F32.finite 9),
      ¬ (a < 0)) :=
  ⟨(sqrt_args_not_negative _ (fun _ => rfl) (fun _ => rfl) _ _ _ (by decide!)).1,
   (sqrt_args_not_negative _ (fun _ => rfl) (fun _ => rfl) _ _ _ (by decide!)).2.1,
   (sqrt_args_not_negative _ (fun _ => rfl) (fun _ => rfl) _ _ _ (by decide!)).2.2.1⟩

end FloatTheorems



section RandomTheorems

variable {α : Type}

/-- C4: for every prior state and every three non-negative values returned by `rand()`,
`random` leaves `rForm`, `gForm` and `bForm` each in `0..9` (so never the off index 10) and
changes no other field of `global`. -/
theorem random_indices_in_range (r1 r2 r3 : Int) (global : glob α)
    (h1 : 0 ≤ r1) (h2 : 0 ≤ r2) (h3 : 0 ≤ r3) :
    (0 ≤ (random r1 r2 r3 global).rForm ∧ (random r1 r2 r3 global).rForm ≤ 9) ∧
    (0 ≤ (random r1 r2 r3 global).gForm ∧ (random r1 r2 r3 global).gForm ≤ 9) ∧
    (0 ≤ (random r1 r2 r3 global).bForm ∧ (random r1 r2 r3 global).bForm ≤ 9) ∧
    (random r1 r2 r3 global).w = global.w ∧ (random r1 r2 r3 global).h = global.h ∧
    (random r1 r2 r3 global).xMin = global.xMin ∧
    (random r1 r2 r3 global).xMax = global.xMax ∧
    (random r1 r2 r3 global).yMin = global.yMin ∧
    (random r1 r2 r3 global).yMax = global.yMax := by
  have e1 := Int.tmod_eq_emod h1 (by decide : (0 : Int) ≤ 10)
  have e2 := Int.tmod_eq_emod h2 (by decide : (0 : Int) ≤ 10)
  have e3 := Int.tmod_eq_emod h3 (by decide : (0 : Int) ≤ 10)
  refine ⟨⟨?_, ?_⟩, ⟨?_, ?_⟩, ⟨?_, ?_⟩, rfl, rfl, rfl, rfl, rfl, rfl⟩ <;>
    simp only [random, e1, e2, e3] <;> omega

/-- The theorem `random_indices_in_range` applied to the `rand()` values 41, 18467, 6334 and
the start-up state with all channels off. -/
theorem random_indices_in_range_witness :
    (random 41 18467 6334 (glob.mk 500 500 10 10 10 (-100 : ℚ) 100 (-100) 100)).rForm = 1 ∧
    (0 ≤ (random 41 18467 6334 (glob.mk 500 500 10 10 10 (-100 : ℚ) 100 (-100) 100)).gForm ∧
      (random 41 18467 6334 (glob.mk 500 500 10 10 10 (-100 : ℚ) 100 (-100) 100)).gForm ≤ 9) :=
  ⟨by decide,
   (random_indices_in_range 41 18467 6334 (glob.mk 500 500 10 10 10 (-100 : ℚ) 100 (-100) 100)
      (by decide) (by decide) (by decide)).2.1⟩

end RandomTheorems

section StateTheorems

variable {α : Type} [LinearOrderedField α]

/-- A value kept by the range loop lies between -1000000000 and 1000000000. -/
theorem readInRange_some (input rest : List α) (v : α)
    (h : readInRange input = some (v, rest)) :
    -1000000000 ≤ v ∧ v ≤ 1000000000 := by
  induction input with
  | nil => simp [readInRange] at h
  | cons a l ih =>
    simp only [readInRange] at h
    split_ifs at h with hc
    · exact ih h
    · simp only [Option.some.injEq, Prod.mk.injEq] at h
      rw [← h.1]
      constructor
      · by_contra hlt
        exact hc (Or.inl (not_le.mp hlt))
      · by_contra hgt
        exact hc (Or.inr (not_le.mp hgt))

/-- A maximum kept by the loop `while (newMin > newMax)` is not below the minimum. -/
theorem rereadMax_some (newMin newMax : α) (input rest : List α) (v : α)
    (h : rereadMax newMin newMax input = some (v, rest)) : newMin ≤ v := by
  induction input generalizing newMax with
  | nil =>
    simp only [rereadMax] at h
    split_ifs at h with hc
    simp only [Option.some.injEq, Prod.mk.injEq] at h
    rw [← h.1]
    exact not_lt.mp hc
  | cons a l ih =>
    simp only [rereadMax] at h
    split_ifs at h with hc
    · exact ih a h
    · simp only [Option.some.injEq, Prod.mk.injEq] at h
      rw [← h.1]
      exact not_lt.mp hc

/-- What every domain committed by `changeCoordinates` satisfies: both minimums lie in
`[-1000000000, 1000000000]`, no maximum is below its minimum, and the window size and the
three formula indices are untouched. -/
theorem changeCoordinates_committed (input : List α) (global newGlobal : glob α)
    (h : changeCoordinates input global = some newGlobal) :
    (-1000000000 ≤ newGlobal.xMin ∧ newGlobal.xMin ≤ 1000000000) ∧
    (-1000000000 ≤ newGlobal.yMin ∧ newGlobal.yMin ≤ 1000000000) ∧
    newGlobal.xMin ≤ newGlobal.xMax ∧ newGlobal.yMin ≤ newGlobal.yMax ∧
    newGlobal.w = global.w ∧ newGlobal.h = global.h ∧ newGlobal.rForm = global.rForm ∧
    newGlobal.gForm = global.gForm ∧ newGlobal.bForm = global.bForm := by
  unfold changeCoordinates at h
  split at h
  · exact absurd h (by simp)
  · rename_i newXMin in1 h1
    split at h
    · exact absurd h (by simp)
    · rename_i newXMax0 in2 h2
      split at h
      · exact absurd h (by simp)
      · rename_i newXMax in3 h3
        split at h
        · exact absurd h (by simp)
        · rename_i newYMin in4 h4
          split at h
          · exact absurd h (by simp)
          · rename_i newYMax0 in5 h5
            split at h
            · exact absurd h (by simp)
            · rename_i newYMax in6 h6
              simp only [Option.some.injEq] at h
              subst h
              exact ⟨readInRange_some _ _ _ h1, readInRange_some _ _ _ h4,
                rereadMax_some _ _ _ _ _ h3, rereadMax_some _ _ _ _ _ h6,
                rfl, rfl, rfl, rfl, rfl⟩

/-- Four entered bounds with the X minimum above the X maximum, or the Y minimum above the
Y maximum, are not committed: the call asks again and `global` keeps its value. -/
theorem changeCoordinates_refuses_strict (a b c d : α) (global : glob α)
    (h : a > b ∨ c > d) : changeCoordinates [a, b, c, d] global = none := by
  by_cases ha : a < -1000000000 ∨ a > 1000000000
  · by_cases hb : b < -1000000000 ∨ b > 1000000000
    · by_cases hc : c < -1000000000 ∨ c > 1000000000 <;>
        by_cases hd : d < -1000000000 ∨ d > 1000000000 <;> by_cases hcd : c > d <;>
        simp [changeCoordinates, readInRange, rereadMax, ha, hb, hc, hd, hcd]
    · by_cases hc : c < -1000000000 ∨ c > 1000000000 <;>
        by_cases hd : d < -1000000000 ∨ d > 1000000000 <;>
        by_cases hbc : b > c <;> by_cases hbd : b > d <;> by_cases hcd : c > d <;>
        simp [changeCoordinates, readInRange, rereadMax, ha, hb, hc, hd, hbc, hbd, hcd]
  · by_cases hb : b < -1000000000 ∨ b > 1000000000
    · by_cases hc : c < -1000000000 ∨ c > 1000000000 <;>
        by_cases hd : d < -1000000000 ∨ d > 1000000000 <;>
        by_cases hac : a > c <;> by_cases had : a > d <;> by_cases hcd : c > d <;>
        simp [changeCoordinates, readInRange, rereadMax, ha, hb, hc, hd, hac, had, hcd]
    · by_cases hab : a > b
      · by_cases hac : a > c <;> by_cases had : a > d <;>
          by_cases hd : d < -1000000000 ∨ d > 1000000000 <;>
          simp [changeCoordinates, readInRange, rereadMax, ha, hb, hd, hab, hac, had]
      · have hcd : c > d := h.resolve_left hab
        by_cases hc : c < -1000000000 ∨ c > 1000000000 <;>
          by_cases hd : d < -1000000000 ∨ d > 1000000000 <;>
          simp [changeCoordinates, readInRange, rereadMax, ha, hb, hc, hd, hab, hcd]

/-- C2, the code at the failing input: with the numbers 5, 5, -1, 1 entered, the loop
`while (newXMin > newXMax)` lets `xMin = xMax` pass and `changeCoordinates` commits the bounds
`(5, 5, -1, 1)`, whatever the prior domain was. -/
theorem changeCoordinates_commits_equal_bounds (global : glob α) :
    changeCoordinates [5, 5, -1, 1] global
      = some { global with xMin := 5, xMax := 5, yMin := -1, yMax := 1 } := by
  norm_num [changeCoordinates, readInRange, rereadMax]

/-- C3, the code at the failing input: with the numbers 5, 3, 2000000000, -1, 1 entered, the
X maximum 3 is refused as smaller than the X minimum, and the value 2000000000 entered at the
re-prompt is committed as `xMax` although it exceeds 1000000000. -/
theorem changeCoordinates_commits_out_of_range (global : glob α) :
    changeCoordinates [5, 3, 2000000000, -1, 1] global
        = some { global with xMin := 5, xMax := 2000000000, yMin := -1, yMax := 1 } ∧
      (1000000000 : α) < 2000000000 := by
  norm_num [changeCoordinates, readInRange, rereadMax]

/-- C5, the claim as stated fails: the value 47 is none of the enumerated menu commands, yet
`menuFunc` ends exactly as it does for the accepted command `MENU_R0` in the same state (red
index already 0): it returns after `glutPostRedisplay()` with `global` as it was. Nothing
reports an invalid argument. -/
theorem menuFunc_invalid_value_not_reported :
    menuFunc 47 0 0 0 [] (glob.mk 500 500 0 0 0 (-100 : ℚ) 100 (-100) 100)
        = MenuOutcome.returned (glob.mk 500 500 0 0 0 (-100 : ℚ) 100 (-100) 100) ∧
      menuFunc MENU_R0 0 0 0 [] (glob.mk 500 500 0 0 0 (-100 : ℚ) 100 (-100) 100)
        = MenuOutcome.returned (glob.mk 500 500 0 0 0 (-100 : ℚ) 100 (-100) 100) := by
  constructor <;> simp [menuFunc]

/-- C5 amended: a `menuFunc` value that is not one of the enumerated menu commands (below
`MENU_SAVE` or above `MENU_BOFF`) leaves `global`, and so all three channel indices,
unchanged; the call returns normally after `glutPostRedisplay()` and reports no error. -/
theorem menuFunc_invalid_value_no_change (value r1 r2 r3 : Int) (input : List α)
    (global : glob α) (h : value < MENU_SAVE ∨ MENU_BOFF < value) :
    menuFunc value r1 r2 r3 input global = MenuOutcome.returned global := by
  simp only [MENU_SAVE, MENU_BOFF] at h
  have hne : ∀ c : Int, 0 ≤ c → c ≤ 46 → ¬ (value = c) := by
    intro c h0 h46
    omega
  simp [menuFunc, hne]

/-- The ten texture presets `MENU_T0 .. MENU_T9` set all three indices to the preset's number. -/
theorem menuFunc_texture (k r1 r2 r3 : Int) (input : List α) (global : glob α)
    (h0 : 0 ≤ k) (h9 : k ≤ 9) :
    menuFunc (MENU_T0 + k) r1 r2 r3 input global
      = MenuOutcome.returned { global with rForm := k, gForm := k, bForm := k } := by
  interval_cases k <;> simp [menuFunc]

/-- The commands `MENU_R0 .. MENU_ROFF` set the red index and nothing else. -/
theorem menuFunc_red (k r1 r2 r3 : Int) (input : List α) (global : glob α)
    (h0 : 0 ≤ k) (h10 : k ≤ 10) :
    menuFunc (MENU_R0 + k) r1 r2 r3 input global
      = MenuOutcome.returned { global with rForm := k } := by
  interval_cases k <;> simp [menuFunc]

/-- The commands `MENU_G0 .. MENU_GOFF` set the green index and nothing else. -/
theorem menuFunc_green (k r1 r2 r3 : Int) (input : List α) (global : glob α)
    (h0 : 0 ≤ k) (h10 : k ≤ 10) :
    menuFunc (MENU_G0 + k) r1 r2 r3 input global
      = MenuOutcome.returned { global with gForm := k } := by
  interval_cases k <;> simp [menuFunc]

/-- The commands `MENU_B0 .. MENU_BOFF` set the blue index and nothing else. -/
theorem menuFunc_blue (k r1 r2 r3 : Int) (input : List α) (global : glob α)
    (h0 : 0 ≤ k) (h10 : k ≤ 10) :
    menuFunc (MENU_B0 + k) r1 r2 r3 input global
      = MenuOutcome.returned { global with bForm := k } := by
  interval_cases k <;> simp [menuFunc]

/-- C6: `menuFunc` updates exactly the channels the selection command names. Texture preset
`k` (`0 ≤ k ≤ 9`) sets the three indices to `(k, k, k)`; the red, green or blue command with
index `k` (`0 ≤ k ≤ 10`) sets that channel's index to `k` and nothing else; and for every
selection command `value` (`MENU_T0 .. MENU_BOFF`) the call returns with the grid size and the
coordinate domain unchanged and with indices that were within `[0, 10]` still within
`[0, 10]`. -/
theorem menuFunc_selection (k value r1 r2 r3 : Int) (input : List α) (global : glob α) :
    (0 ≤ k → k ≤ 9 → menuFunc (MENU_T0 + k) r1 r2 r3 input global
      = MenuOutcome.returned { global with rForm := k, gForm := k, bForm := k }) ∧
    (0 ≤ k → k ≤ 10 → menuFunc (MENU_R0 + k) r1 r2 r3 input global
      = MenuOutcome.returned { global with rForm := k }) ∧
    (0 ≤ k → k ≤ 10 → menuFunc (MENU_G0 + k) r1 r2 r3 input global
      = MenuOutcome.returned { global with gForm := k }) ∧
    (0 ≤ k → k ≤ 10 → menuFunc (MENU_B0 + k) r1 r2 r3 input global
      = MenuOutcome.returned { global with bForm := k }) ∧
    (MENU_T0 ≤ value → value ≤ MENU_BOFF → ∃ g : glob α,
      menuFunc value r1 r2 r3 input global = MenuOutcome.returned g ∧
      g.w = global.w ∧ g.h = global.h ∧ g.xMin = global.xMin ∧ g.xMax = global.xMax ∧
      g.yMin = global.yMin ∧ g.yMax = global.yMax ∧
      (0 ≤ global.rForm ∧ global.rForm ≤ 10 → 0 ≤ global.gForm ∧ global.gForm ≤ 10 →
        0 ≤ global.bForm ∧ global.bForm ≤ 10 →
        (0 ≤ g.rForm ∧ g.rForm ≤ 10) ∧ (0 ≤ g.gForm ∧ g.gForm ≤ 10) ∧
          (0 ≤ g.bForm ∧ g.bForm ≤ 10))) := by
  refine ⟨menuFunc_texture k r1 r2 r3 input global, menuFunc_red k r1 r2 r3 input global,
    menuFunc_green k r1 r2 r3 input global, menuFunc_blue k r1 r2 r3 input global, ?_⟩
  intro h0 h46
  simp only [MENU_T0] at h0
  simp only [MENU_BOFF] at h46
  by_cases hT : value ≤ 13
  · have e : MENU_T0 + (value - 4) = value := by simp only [MENU_T0]; omega
    have hm := menuFunc_texture (value - 4) r1 r2 r3 input global (by omega) (by omega)
    rw [e] at hm
    refine ⟨_, hm, rfl, rfl, rfl, rfl, rfl, rfl, ?_⟩
    intro _ _ _
    simp only
    omega
  · by_cases hR : value ≤ 24
    · have e : MENU_R0 + (value - 14) = value := by simp only [MENU_R0]; omega
      have hm := menuFunc_red (value - 14) r1 r2 r3 input global (by omega) (by omega)
      rw [e] at hm
      refine ⟨_, hm, rfl, rfl, rfl, rfl, rfl, rfl, ?_⟩
      intro _ _ _
      simp only
      omega
    · by_cases hG : value ≤ 35
      · have e : MENU_G0 + (value - 25) = value := by simp only [MENU_G0]; omega
        have hm := menuFunc_green (value - 25) r1 r2 r3 input global (by omega) (by omega)
        rw [e] at hm
        refine ⟨_, hm, rfl, rfl, rfl, rfl, rfl, rfl, ?_⟩
        intro _ _ _
        simp only
        omega
      · have e : MENU_B0 + (value - 36) = value := by simp only [MENU_B0]; omega
        have hm := menuFunc_blue (value - 36) r1 r2 r3 input global (by omega) (by omega)
        rw [e] at hm
        refine ⟨_, hm, rfl, rfl, rfl, rfl, rfl, rfl, ?_⟩
        intro _ _ _
        simp only
        omega

/-- The theorem `menuFunc_invalid_value_no_change` applied to the values 47 and -1. -/
theorem menuFunc_invalid_value_no_change_witness :
    menuFunc 47 41 18467 6334 [1, 2] (glob.mk 500 500 3 10 7 (-100 : ℚ) 100 (-100) 100)
        = MenuOutcome.returned (glob.mk 500 500 3 10 7 (-100 : ℚ) 100 (-100) 100) ∧
      menuFunc (-1) 41 18467 6334 [1, 2] (glob.mk 500 500 3 10 7 (-100 : ℚ) 100 (-100) 100)
        = MenuOutcome.returned (glob.mk 500 500 3 10 7 (-100 : ℚ) 100 (-100) 100) :=
  ⟨menuFunc_invalid_value_no_change 47 41 18467 6334 [1, 2] _ (Or.inr (by decide)),
   menuFunc_invalid_value_no_change (-1) 41 18467 6334 [1, 2] _ (Or.inl (by decide))⟩

/-- The theorem `menuFunc_selection` applied with `k = 5` and `value = MENU_GOFF` to a
state with indices `(3, 10, 7)`: the commands `MENU_T5`, `MENU_R5`, `MENU_G5`, `MENU_B5` and
`MENU_GOFF`. -/
theorem menuFunc_selection_witness :
    menuFunc (MENU_T0 + 5) 0 0 0 [] (glob.mk 500 500 3 10 7 (-100 : ℚ) 100 (-100) 100)
        = MenuOutcome.returned (glob.mk 500 500 5 5 5 (-100 : ℚ) 100 (-100) 100) ∧
      menuFunc (MENU_R0 + 5) 0 0 0 [] (glob.mk 500 500 3 10 7 (-100 : ℚ) 100 (-100) 100)
        = MenuOutcome.returned (glob.mk 500 500 5 10 7 (-100 : ℚ) 100 (-100) 100) ∧
      menuFunc (MENU_G0 + 5) 0 0 0 [] (glob.mk 500 500 3 10 7 (-100 : ℚ) 100 (-100) 100)
        = MenuOutcome.returned (glob.mk 500 500 3 5 7 (-100 : ℚ) 100 (-100) 100) ∧
      menuFunc (MENU_B0 + 5) 0 0 0 [] (glob.mk 500 500 3 10 7 (-100 : ℚ) 100 (-100) 100)
        = MenuOutcome.returned (glob.mk 500 500 3 10 5 (-100 : ℚ) 100 (-100) 100) ∧
      ∃ g : glob ℚ,
        menuFunc MENU_GOFF 0 0 0 [] (glob.mk 500 500 3 10 7 (-100 : ℚ) 100 (-100) 100)
          = MenuOutcome.returned g ∧ g.w = 500 ∧ g.h = 500 ∧
          (0 ≤ g.rForm ∧ g.rForm ≤ 10) ∧ (0 ≤ g.gForm ∧ g.gForm ≤ 10) ∧
          (0 ≤ g.bForm ∧ g.bForm ≤ 10) :=
  ⟨(menuFunc_selection 5 MENU_GOFF 0 0 0 [] _).1 (by decide) (by decide),
   (menuFunc_selection 5 MENU_GOFF 0 0 0 [] _).2.1 (by decide) (by decide),
   (menuFunc_selection 5 MENU_GOFF 0 0 0 [] _).2.2.1 (by decide) (by decide),
   (menuFunc_selection 5 MENU_GOFF 0 0 0 [] _).2.2.2.1 (by decide) (by decide),
   ((menuFunc_selection 5 MENU_GOFF 0 0 0 [] _).2.2.2.2 (by decide) (by decide)).imp
     (fun _ hg => ⟨hg.1, hg.2.1, hg.2.2.1,
       hg.2.2.2.2.2.2.2 (by decide) (by decide) (by decide)⟩)⟩

end StateTheorems

section RasterTheorems

variable {α : Type} [LinearOrderedField α]

/-- Without rounding, `col` additions of the step to `xMin` give the closed form of the
specification. -/
theorem loopX_eq_specX (global : glob α) (col : Nat) : loopX global col = specX global col := by
  unfold loopX specX
  induction col with
  | zero => simp
  | succ n ih =>
    rw [Function.iterate_succ_apply', ih]
    push_cast
    ring

/-- Without rounding, `row` additions of the step to `yMin` give the closed form of the
specification. -/
theorem loopY_eq_specY (global : glob α) (row : Nat) : loopY global row = specY global row := by
  unfold loopY specY
  induction row with
  | zero => simp
  | succ n ih =>
    rw [Function.iterate_succ_apply', ih]
    push_cast
    ring

/-- C7 amended: for every grid size `w, h ≥ 1` and every domain, one pass of `draw_texture`
emits exactly `w * h` points in column-major order (the point of column `col` and row `row`
has index `col * h + row`), and that point is at the position the loop accumulates: `xMin`
after `col` additions of `(xMax - xMin) / w` and `yMin` after `row` additions of
`(yMax - yMin) / h`, in the arithmetic of the number type (for `float`: each addition
rounded). In arithmetic without rounding (`globalExact`, over an ordered field) the accumulated
position equals the closed form `x = xMin + col * (xMax - xMin) / w`,
`y = yMin + row * (yMax - yMin) / h` of the specification. -/
theorem draw_texture_accumulates {β : Type} [Zero β] [One β] [NatCast β] [IntCast β]
    [OfScientific β] [Add β] [Sub β] [Mul β] [Div β] [Neg β] [LT β] [DecidableEq β]
    [DecidableRel (fun a b : β => a < b)] (m : MathLib β) (global : glob β)
    (hw : 1 ≤ global.w) (hh : 1 ≤ global.h) (mExact : MathLib α) (globalExact : glob α) :
    ((draw_texture m global).length : Int) = global.w * global.h ∧
    (∀ col row : Nat, (col : Int) < global.w → (row : Int) < global.h →
      (draw_texture m global)[col * global.h.toNat + row]?
        = some (loopPoint m global col row)) ∧
    (∀ col row : Nat,
      loopPoint mExact globalExact col row = specPoint mExact globalExact col row) := by
  refine ⟨(draw_texture_get m global hw hh).1, (draw_texture_get m global hw hh).2, ?_⟩
  intro col row
  simp only [loopPoint, specPoint, loopX_eq_specX, loopY_eq_specY]

/-- The theorem `draw_texture_accumulates` applied to a 2 x 3 grid over the domain
`[0, 1] x [0, 3]` with the formulas green 2 (`37 * x + y`) and off, off, in real arithmetic:
six points, the last one (column 1, row 2) at the accumulated position, which is the
closed-form position `(1/2, 2)`. -/
theorem draw_texture_accumulates_witness :
    ((draw_texture (MathLib.mk Real.sin Real.cos Real.tan Real.sqrt Real.rpow)
        (glob.mk 2 3 10 2 10 0 1 0 3)).length : Int) = 2 * 3 ∧
      (draw_texture (MathLib.mk Real.sin Real.cos Real.tan Real.sqrt Real.rpow)
        (glob.mk 2 3 10 2 10 0 1 0 3))[1 * 3 + 2]?
        = some (loopPoint (MathLib.mk Real.sin Real.cos Real.tan Real.sqrt Real.rpow)
            (glob.mk 2 3 10 2 10 0 1 0 3) 1 2) ∧
      loopPoint (MathLib.mk Real.sin Real.cos Real.tan Real.sqrt Real.rpow)
            (glob.mk 2 3 10 2 10 0 1 0 3) 1 2
        = specPoint (MathLib.mk Real.sin Real.cos Real.tan Real.sqrt Real.rpow)
            (glob.mk 2 3 10 2 10 0 1 0 3) 1 2 ∧
      specPoint (MathLib.mk Real.sin Real.cos Real.tan Real.sqrt Real.rpow)
            (glob.mk 2 3 10 2 10 0 1 0 3) 1 2 = Point.mk (1 / 2) 2 0 (41 / 2) 0 :=
  ⟨(draw_texture_accumulates _ (glob.mk 2 3 10 2 10 0 1 0 3) (by decide) (by decide)
      (MathLib.mk Real.sin Real.cos Real.tan Real.sqrt Real.rpow)
      (glob.mk 2 3 10 2 10 0 1 0 3)).1,
   (draw_texture_accumulates _ (glob.mk 2 3 10 2 10 0 1 0 3) (by decide) (by decide)
      (MathLib.mk Real.sin Real.cos Real.tan Real.sqrt Real.rpow)
      (glob.mk 2 3 10 2 10 0 1 0 3)).2.1 1 2 (by decide) (by decide),
   (draw_texture_accumulates (MathLib.mk Real.sin Real.cos Real.tan Real.sqrt Real.rpow)
      (glob.mk 2 3 10 2 10 0 1 0 3) (by decide) (by decide)
      (MathLib.mk Real.sin Real.cos Real.tan Real.sqrt Real.rpow)
      (glob.mk 2 3 10 2 10 0 1 0 3)).2.2 1 2,
   by norm_num [specPoint, specX, specY, redFormula, greenFormula, blueFormula]⟩

/-- With the three indices at 10 every point of the inner loop is black. -/
theorem draw_column_black (m : MathLib α) (global : glob α)
    (hr : global.rForm = 10) (hg : global.gForm = 10) (hb : global.bForm = 10)
    (x : α) (n : Nat) (y : α) :
    ∀ p ∈ draw_column m global x n y, p.r = 0 ∧ p.g = 0 ∧ p.b = 0 := by
  induction n generalizing y with
  | zero => simp [draw_column]
  | succ n ih =>
    intro p hp
    simp only [draw_column, List.mem_cons] at hp
    rcases hp with rfl | hp
    · simp [redFormula, greenFormula, blueFormula, hr, hg, hb]
    · exact ih _ p hp

/-- With the three indices at 10 every point of the outer loop is black. -/
theorem draw_columns_black (m : MathLib α) (global : glob α)
    (hr : global.rForm = 10) (hg : global.gForm = 10) (hb : global.bForm = 10)
    (n : Nat) (x : α) :
    ∀ p ∈ draw_columns m global n x, p.r = 0 ∧ p.g = 0 ∧ p.b = 0 := by
  induction n generalizing x with
  | zero => simp [draw_columns]
  | succ n ih =>
    intro p hp
    simp only [draw_columns, List.mem_append] at hp
    rcases hp with hp | hp
    · exact draw_column_black m global hr hg hb _ _ _ p hp
    · exact ih _ p hp

/-- C8: with all three channel indices at 10 (off), every point emitted by a pass of
`draw_texture` has colour `(0, 0, 0)`, for every grid size and domain; and for the 2 x 2 grid
with domain `[0, 1] x [0, 1]` the pass emits exactly the four black points at `(0, 0)`,
`(0, 1/2)`, `(1/2, 0)`, `(1/2, 1/2)`, in that order. -/
theorem draw_texture_all_off (m : MathLib α) :
    (∀ global : glob α, global.rForm = 10 → global.gForm = 10 → global.bForm = 10 →
      ∀ p ∈ draw_texture m global, p.r = 0 ∧ p.g = 0 ∧ p.b = 0) ∧
    draw_texture m (glob.mk 2 2 10 10 10 0 1 0 1)
      = [Point.mk 0 0 0 0 0, Point.mk 0 (1 / 2) 0 0 0,
         Point.mk (1 / 2) 0 0 0 0, Point.mk (1 / 2) (1 / 2) 0 0 0] := by
  constructor
  · intro global hr hg hb
    exact draw_columns_black m global hr hg hb _ _
  · have e : (2 : Int).toNat = 2 := rfl
    norm_num [draw_texture, draw_columns, draw_column, e, redFormula, greenFormula,
      blueFormula]

/-- The theorem `draw_texture_all_off` applied with the real functions: every point of the
start-up window (500 x 500, domain `[-100, 100] x [-100, 100]`) with the three channels off is
black, and the 2 x 2 pass over `[0, 1] x [0, 1]` is the four listed points. -/
theorem draw_texture_all_off_witness :
    (∀ p ∈ draw_texture (MathLib.mk Real.sin Real.cos Real.tan Real.sqrt Real.rpow)
        (glob.mk 500 500 10 10 10 (-100) 100 (-100) 100), p.r = 0 ∧ p.g = 0 ∧ p.b = 0) ∧
      draw_texture (MathLib.mk Real.sin Real.cos Real.tan Real.sqrt Real.rpow)
        (glob.mk 2 2 10 10 10 0 1 0 1)
        = [Point.mk 0 0 0 0 0, Point.mk 0 (1 / 2) 0 0 0,
           Point.mk (1 / 2) 0 0 0 0, Point.mk (1 / 2) (1 / 2) 0 0 0] :=
  ⟨(draw_texture_all_off _).1 (glob.mk 500 500 10 10 10 (-100) 100 (-100) 100) rfl rfl rfl,
   (draw_texture_all_off _).2⟩

end RasterTheorems

end TextureExplorer
